import Mathlib

/-!
Verification of the armbian-imager front-end flashing flow.

The definitions below are a shallow embedding of the TypeScript sources:
the data model from src/types/index.ts, the device-selection modal from
the DeviceModal component, the FlashProgress component of
src/components/BoardModal.tsx (authorization, download, decompression,
flash, failure handling, device monitoring, progress polling and
rendering), the command wrappers from src/hooks/useTauri.ts, and the
constants from src/config/constants.ts.  Backend (Tauri) commands are
modelled by an environment record holding each command's outcome, and
every front-end function additionally returns the ordered list of
backend calls it performs.  Machine numbers are Nat/Int; progress
percentages are compared and copied but never computed with, so Nat is
used for them.
-/

/-- BlockDevice, from src/types/index.ts.  The size is in bytes. -/
structure BlockDevice where
  path : String
  name : String
  size : Int
  size_formatted : String
  model : String
  is_removable : Bool
  is_system : Bool
  bus_type : Option String
deriving DecidableEq

/-- ImageInfo, from src/types/index.ts, restricted to the fields the
flashing flow reads. -/
structure ImageInfo where
  file_url : String
  file_url_sha : Option String
  is_custom : Bool
  custom_path : Option String
deriving DecidableEq

/-- DownloadProgress snapshot, from src/types/index.ts, with the
sha-verification flag read by the BoardModal.tsx poll. -/
structure DownloadProgress where
  total_bytes : Nat
  downloaded_bytes : Nat
  is_decompressing : Bool
  is_verifying_sha : Bool
  progress_percent : Nat
  error : Option String
deriving DecidableEq

/-- FlashProgress snapshot, from src/types/index.ts. -/
structure FlashProgress where
  total_bytes : Nat
  written_bytes : Nat
  verified_bytes : Nat
  is_verifying : Bool
  progress_percent : Nat
  error : Option String
deriving DecidableEq

namespace POLLING

/-- Device connection check interval (ms), src/config/constants.ts. -/
def DEVICE_CHECK : Nat := 2000

/-- Download progress update interval (ms), src/config/constants.ts. -/
def DOWNLOAD_PROGRESS : Nat := 250

/-- Flash progress update interval (ms), src/config/constants.ts. -/
def FLASH_PROGRESS : Nat := 250

end POLLING

namespace CACHE

/-- Maximum consecutive flash failures before auto-deleting a cached
image, src/config/constants.ts. -/
def MAX_FLASH_FAILURES : Nat := 3

end CACHE

/-- The stage union type of the FlashProgress component
(FlashStageIcon.tsx). -/
inductive FlashStage where
  | authorizing
  | downloading
  | verifying_sha
  | decompressing
  | flashing
  | verifying
  | complete
  | error
deriving DecidableEq

/-- State of the DeviceModal component: the device picked by a click and
whether the confirmation dialog is shown. -/
structure DeviceModalState where
  selectedDevice : Option BlockDevice
  showConfirm : Bool
deriving DecidableEq

/-- handleDeviceClick of DeviceModal: a click on a system device returns
immediately; otherwise the device is selected and the confirmation
dialog opens. -/
def handleDeviceClick (device : BlockDevice) (st : DeviceModalState) : DeviceModalState :=
  if device.is_system then st
  else { selectedDevice := some device, showConfirm := true }

/-- handleConfirm of DeviceModal: onSelect fires (second component) only
when a device is selected and it is not a system device; the dialog then
closes. -/
def handleConfirm (st : DeviceModalState) : DeviceModalState × Option BlockDevice :=
  match st.selectedDevice with
  | some d =>
      if !d.is_system then ({ st with showConfirm := false }, some d)
      else (st, none)
  | none => (st, none)

/-- The comparator passed to Array.prototype.sort by sortDevices:
system disks last, removable first, then larger sizes first. -/
def devCmp (a b : BlockDevice) : Int :=
  if a.is_system != b.is_system then (if a.is_system then 1 else -1)
  else if a.is_removable != b.is_removable then (if a.is_removable then -1 else 1)
  else b.size - a.size

/-- The non-positive-comparator relation induced by devCmp; a JS sort
orders the copied array so that consecutive elements satisfy it. -/
def devLE (a b : BlockDevice) : Prop := devCmp a b ≤ 0

instance : DecidableRel devLE := fun a b =>
  inferInstanceAs (Decidable (devCmp a b ≤ 0))

instance : IsTrans BlockDevice devLE :=
  ⟨by
    intro a b c
    obtain ⟨_, _, asz, _, _, arm, asy, _⟩ := a
    obtain ⟨_, _, bsz, _, _, brm, bsy, _⟩ := b
    obtain ⟨_, _, csz, _, _, crm, csy, _⟩ := c
    cases asy <;> cases bsy <;> cases csy <;> cases arm <;> cases brm <;> cases crm <;>
      simp [devLE, devCmp] <;> omega⟩

instance : IsTotal BlockDevice devLE :=
  ⟨by
    intro a b
    obtain ⟨_, _, asz, _, _, arm, asy, _⟩ := a
    obtain ⟨_, _, bsz, _, _, brm, bsy, _⟩ := b
    cases asy <;> cases bsy <;> cases arm <;> cases brm <;>
      simp [devLE, devCmp] <;> omega⟩

/-- sortDevices of DeviceModal: sorts a copy of the device list with
devCmp (the source copies the array before sorting, so the input is
untouched; here that is purity). -/
def sortDevices (devices : List BlockDevice) : List BlockDevice :=
  List.insertionSort devLE devices

/-- Browser sessionStorage restricted to the numeric failure counters the
component stores in it: an association list from keys to counts. -/
abbrev SessionStorage : Type := List (String × Nat)

instance {ε α : Type} [DecidableEq ε] [DecidableEq α] : DecidableEq (Except ε α) := fun a b =>
  match a, b with
  | Except.ok x, Except.ok y =>
      if h : x = y then Decidable.isTrue (by subst h; rfl)
      else Decidable.isFalse (by intro hc; injection hc; exact h (by assumption))
  | Except.error x, Except.error y =>
      if h : x = y then Decidable.isTrue (by subst h; rfl)
      else Decidable.isFalse (by intro hc; injection hc; exact h (by assumption))
  | Except.ok _, Except.error _ => Decidable.isFalse (by intro hc; injection hc)
  | Except.error _, Except.ok _ => Decidable.isFalse (by intro hc; injection hc)

/-- Reading a counter: getItem followed by parseInt, with 0 when the key
is absent (the source falls back to 0 on a missing or unparsable item). -/
def storageGet (s : SessionStorage) (k : String) : Nat :=
  match List.find? (fun p => p.1 == k) s with
  | some p => p.2
  | none => 0

/-- Writing a counter, mirroring setFlashFailureCount: a zero count
removes the item, any other count replaces it. -/
def storageSet (s : SessionStorage) (k : String) (n : Nat) : SessionStorage :=
  if n = 0 then List.filter (fun p => !(p.1 == k)) s
  else (k, n) :: List.filter (fun p => !(p.1 == k)) s

/-- The per-image sessionStorage key for the failure counter:
STORAGE_KEYS stores the text before the url, and the component appends
image.file_url. -/
def failureStorageKey (image : ImageInfo) : String :=
  "flash_failure_count_" ++ image.file_url

/-- State of the FlashProgress component of BoardModal.tsx: the stage and
displayed percent, the error shown, the imagePath state variable, the
maxProgressRef and deviceDisconnectedRef refs, the failure counters in
sessionStorage, and whether the progress-poll interval and the
device-monitor interval are installed. -/
structure FlashState where
  stage : FlashStage
  progress : Nat
  maxProgress : Nat
  error : Option String
  imagePath : Option String
  deviceDisconnected : Bool
  storage : SessionStorage
  pollTimer : Bool
  monitorTimer : Bool
deriving DecidableEq

/-- getFlashFailureCount of the component: the stored count under the
image's key, defaulting to 0. -/
def getFlashFailureCount (st : FlashState) (image : ImageInfo) : Nat :=
  storageGet st.storage (failureStorageKey image)

/-- One backend (Tauri) command invocation, as recorded in a trace. -/
inductive Call where
  | requestWriteAuthorization (devicePath : String)
  | checkNeedsDecompression (path : String)
  | decompressCustomImage (path : String)
  | downloadImage (fileUrl : String) (sha : Option String)
  | flashImage (imagePath devicePath : String) (verify : Bool)
  | cancelOperation
  | forceDeleteCachedImage (path : String)
  | getBlockDevices
  | deleteDownloadedImage (path : String)
  | deleteDecompressedCustomImage (path : String)
deriving DecidableEq

/-- Outcomes of the backend commands a single flash attempt can invoke:
ok carries the resolved value, error the rejection message (thrown
errors are Error objects whose message the component surfaces). -/
structure Env where
  authResult : Except String Bool
  needsDecompression : Except String Bool
  decompressResult : Except String String
  downloadResult : Except String String
  flashResult : Except String Unit
  forceDeleteResult : Except String Unit
  devicesNow : Except String (List BlockDevice)
deriving DecidableEq

/-- Translation key the component passes to t for the disconnect error. -/
def deviceDisconnectedMsg : String := "error.deviceDisconnected"

/-- Translation key for a cancelled authorization prompt. -/
def authCancelledMsg : String := "error.authCancelled"

/-- Modelled from the spec: utils/deviceUtils.ts is not under src (only
its callers are).  The spec says the operation is aborted when the
selected device path is absent from the get_block_devices result, so
isDeviceConnected holds exactly when some enumerated device has the
given path. -/
def isDeviceConnected (path : String) (devices : List BlockDevice) : Bool :=
  devices.any (fun d => d.path == path)

/-- handleDeviceDisconnected of the component: set the disconnected ref,
clear both intervals, cancel the running operation, and surface the
disconnect error. -/
def handleDeviceDisconnected (st : FlashState) : FlashState × List Call :=
  ({ st with deviceDisconnected := true, pollTimer := false, monitorTimer := false,
             error := some deviceDisconnectedMsg, stage := FlashStage.error },
   [Call.cancelOperation])

/-- cleanupImage of the component: decompressed custom images and
downloaded images are deleted through different commands. -/
def cleanupImage (image : ImageInfo) (path : String) : List Call :=
  if image.is_custom then [Call.deleteDecompressedCustomImage path]
  else [Call.deleteDownloadedImage path]

/-- The failure-count block at the end of startFlash's catch: for a
non-custom image the counter is incremented, and once it reaches
CACHE.MAX_FLASH_FAILURES the cached image is force-deleted and the
counter reset (the reset is skipped when the deletion itself fails);
afterwards the decompressed or downloaded file is cleaned up and the
flash error is surfaced. -/
def flashFailureHandling (image : ImageInfo) (env : Env) (st : FlashState)
    (path : String) (e : String) : FlashState × List Call :=
  if !image.is_custom then
    if getFlashFailureCount st image + 1 ≥ CACHE.MAX_FLASH_FAILURES then
      match env.forceDeleteResult with
      | Except.ok _ =>
          ({ st with storage := storageSet
                       (storageSet st.storage (failureStorageKey image)
                         (getFlashFailureCount st image + 1))
                       (failureStorageKey image) 0,
                     error := some e, stage := FlashStage.error },
           Call.forceDeleteCachedImage path :: cleanupImage image path)
      | Except.error _ =>
          ({ st with storage := storageSet st.storage (failureStorageKey image)
                       (getFlashFailureCount st image + 1),
                     error := some e, stage := FlashStage.error },
           Call.forceDeleteCachedImage path :: cleanupImage image path)
    else
      ({ st with storage := storageSet st.storage (failureStorageKey image)
                   (getFlashFailureCount st image + 1),
                 error := some e, stage := FlashStage.error },
       cleanupImage image path)
  else
    ({ st with error := some e, stage := FlashStage.error }, cleanupImage image path)

/-- The catch handler of startFlash: clear the poll interval, return
early if the monitor already flagged a disconnect, otherwise re-check
device presence (falling through to the flash error if the check itself
fails), and only then run the failure-count and cleanup block. -/
def startFlashCatch (image : ImageInfo) (device : BlockDevice) (env : Env)
    (st : FlashState) (path : String) (e : String) : FlashState × List Call :=
  let st0 := { st with pollTimer := false }
  if st0.deviceDisconnected then (st0, [])
  else
    match env.devicesNow with
    | Except.ok devices =>
        if !(isDeviceConnected device.path devices) then
          ((handleDeviceDisconnected st0).1,
           Call.getBlockDevices :: (handleDeviceDisconnected st0).2)
        else
          ((flashFailureHandling image env st0 path e).1,
           Call.getBlockDevices :: (flashFailureHandling image env st0 path e).2)
    | Except.error _ =>
        ((flashFailureHandling image env st0 path e).1,
         Call.getBlockDevices :: (flashFailureHandling image env st0 path e).2)

/-- startFlash of the component: enter the flashing stage with zeroed
progress and max, start the poll interval, invoke flash_image with
verify set to true; on success reset the failure counter and clean up,
on rejection run the catch handler. -/
def startFlash (image : ImageInfo) (device : BlockDevice) (env : Env)
    (st : FlashState) (path : String) : FlashState × List Call :=
  let st0 := { st with stage := FlashStage.flashing, progress := 0, maxProgress := 0,
                       pollTimer := true }
  match env.flashResult with
  | Except.ok _ =>
      let st1 := { st0 with pollTimer := false, stage := FlashStage.complete, progress := 100,
                            storage := storageSet st0.storage (failureStorageKey image) 0 }
      (st1, Call.flashImage path device.path true :: cleanupImage image path)
  | Except.error e =>
      ((startFlashCatch image device env st0 path e).1,
       Call.flashImage path device.path true :: (startFlashCatch image device env st0 path e).2)

/-- The catch handler of startDownload: clear the poll interval, return
early on a flagged disconnect, otherwise re-check device presence before
surfacing the download error. -/
def startDownloadCatch (device : BlockDevice) (env : Env)
    (st : FlashState) (e : String) : FlashState × List Call :=
  let st0 := { st with pollTimer := false }
  if st0.deviceDisconnected then (st0, [])
  else
    match env.devicesNow with
    | Except.ok devices =>
        if !(isDeviceConnected device.path devices) then
          ((handleDeviceDisconnected st0).1,
           Call.getBlockDevices :: (handleDeviceDisconnected st0).2)
        else
          ({ st0 with error := some e, stage := FlashStage.error }, [Call.getBlockDevices])
    | Except.error _ =>
        ({ st0 with error := some e, stage := FlashStage.error }, [Call.getBlockDevices])

/-- startDownload of the component: enter the downloading stage, start
the poll interval, invoke download_image with the image url and its
optional sha url; on success record the path and start the flash, on
rejection run the catch handler. -/
def startDownload (image : ImageInfo) (device : BlockDevice) (env : Env)
    (st : FlashState) : FlashState × List Call :=
  let st0 := { st with stage := FlashStage.downloading, progress := 0, error := none,
                       maxProgress := 0, pollTimer := true }
  match env.downloadResult with
  | Except.ok path =>
      ((startFlash image device env { st0 with imagePath := some path, pollTimer := false } path).1,
       Call.downloadImage image.file_url image.file_url_sha ::
         (startFlash image device env { st0 with imagePath := some path, pollTimer := false } path).2)
  | Except.error e =>
      ((startDownloadCatch device env st0 e).1,
       Call.downloadImage image.file_url image.file_url_sha :: (startDownloadCatch device env st0 e).2)

/-- The catch handler of handleCustomImage: return early on a flagged
disconnect, otherwise re-check device presence before surfacing the
decompression error (no poll interval exists yet, so none is cleared). -/
def handleCustomImageCatch (device : BlockDevice) (env : Env)
    (st : FlashState) (e : String) : FlashState × List Call :=
  if st.deviceDisconnected then (st, [])
  else
    match env.devicesNow with
    | Except.ok devices =>
        if !(isDeviceConnected device.path devices) then
          ((handleDeviceDisconnected st).1,
           Call.getBlockDevices :: (handleDeviceDisconnected st).2)
        else
          ({ st with error := some e, stage := FlashStage.error }, [Call.getBlockDevices])
    | Except.error _ =>
        ({ st with error := some e, stage := FlashStage.error }, [Call.getBlockDevices])

/-- handleCustomImage of the component: ask check_needs_decompression;
when it answers true enter the decompressing stage and flash the
decompressed path, when false flash the original custom path unchanged;
failures of either command go to the catch handler. -/
def handleCustomImage (image : ImageInfo) (device : BlockDevice) (env : Env)
    (st : FlashState) (customPath : String) : FlashState × List Call :=
  match env.needsDecompression with
  | Except.ok true =>
      match env.decompressResult with
      | Except.ok decompressedPath =>
          ((startFlash image device env
              { st with stage := FlashStage.decompressing, progress := 0,
                        imagePath := some decompressedPath } decompressedPath).1,
           Call.checkNeedsDecompression customPath ::
             Call.decompressCustomImage customPath ::
               (startFlash image device env
                 { st with stage := FlashStage.decompressing, progress := 0,
                           imagePath := some decompressedPath } decompressedPath).2)
      | Except.error e =>
          ((handleCustomImageCatch device env
              { st with stage := FlashStage.decompressing, progress := 0 } e).1,
           Call.checkNeedsDecompression customPath ::
             Call.decompressCustomImage customPath ::
               (handleCustomImageCatch device env
                 { st with stage := FlashStage.decompressing, progress := 0 } e).2)
  | Except.ok false =>
      ((startFlash image device env { st with imagePath := some customPath } customPath).1,
       Call.checkNeedsDecompression customPath ::
         (startFlash image device env { st with imagePath := some customPath } customPath).2)
  | Except.error e =>
      ((handleCustomImageCatch device env st e).1,
       Call.checkNeedsDecompression customPath :: (handleCustomImageCatch device env st e).2)

/-- handleAuthorization of the component: enter the authorizing stage and
ask request_write_authorization for the device path; a false answer or a
rejection ends in the error stage, a true answer continues with the
custom-image flow or the download. -/
def handleAuthorization (image : ImageInfo) (device : BlockDevice) (env : Env)
    (st : FlashState) : FlashState × List Call :=
  let st0 := { st with stage := FlashStage.authorizing, progress := 0, error := none }
  match env.authResult with
  | Except.ok true =>
      match image.is_custom, image.custom_path with
      | true, some customPath =>
          ((handleCustomImage image device env st0 customPath).1,
           Call.requestWriteAuthorization device.path ::
             (handleCustomImage image device env st0 customPath).2)
      | true, none =>
          ((startDownload image device env st0).1,
           Call.requestWriteAuthorization device.path :: (startDownload image device env st0).2)
      | false, _ =>
          ((startDownload image device env st0).1,
           Call.requestWriteAuthorization device.path :: (startDownload image device env st0).2)
  | Except.ok false =>
      ({ st0 with error := some authCancelledMsg, stage := FlashStage.error },
       [Call.requestWriteAuthorization device.path])
  | Except.error e =>
      ({ st0 with error := some e, stage := FlashStage.error },
       [Call.requestWriteAuthorization device.path])

/-- handleRetry of the component: clear the error and the disconnect
flag; with a known image path re-authorize and flash it again, otherwise
restart the whole flow through handleAuthorization. -/
def handleRetry (image : ImageInfo) (device : BlockDevice) (env : Env)
    (st : FlashState) : FlashState × List Call :=
  let st0 := { st with error := none, deviceDisconnected := false }
  match st0.imagePath with
  | some path =>
      let st1 := { st0 with stage := FlashStage.authorizing }
      match env.authResult with
      | Except.ok true =>
          ((startFlash image device env st1 path).1,
           Call.requestWriteAuthorization device.path :: (startFlash image device env st1 path).2)
      | Except.ok false =>
          ({ st1 with error := some authCancelledMsg, stage := FlashStage.error },
           [Call.requestWriteAuthorization device.path])
      | Except.error e =>
          ({ st1 with error := some e, stage := FlashStage.error },
           [Call.requestWriteAuthorization device.path])
  | none => handleAuthorization image device env st0

/-- The stages during which the device monitor useEffect of the
component keeps a poll loop alive. -/
def activeStages : List FlashStage :=
  [FlashStage.downloading, FlashStage.verifying_sha, FlashStage.decompressing,
   FlashStage.flashing, FlashStage.verifying]

/-- Whether the device monitor is running for a given stage. -/
def monitorActive (stage : FlashStage) : Bool :=
  activeStages.contains stage

/-- The device-monitor timer installed by the useEffect for a given
stage: the poll interval in milliseconds while the stage is active, and
none (cleared) once the stage leaves the active set. -/
def monitorTimerAfter (stage : FlashStage) : Option Nat :=
  if monitorActive stage then some POLLING.DEVICE_CHECK else none

/-- Time offset (ms) of the k-th device check after the monitor starts:
the useEffect runs checkDevice immediately and then on every interval
tick. -/
def monitorCheckTime (k : Nat) : Nat := k * POLLING.DEVICE_CHECK

/-- checkDevice of the monitor: enumerate block devices; when the target
path is no longer present, run handleDeviceDisconnected. -/
def checkDevice (device : BlockDevice) (devices : List BlockDevice)
    (st : FlashState) : FlashState × List Call :=
  if isDeviceConnected device.path devices then (st, [Call.getBlockDevices])
  else
    ((handleDeviceDisconnected st).1, Call.getBlockDevices :: (handleDeviceDisconnected st).2)

/-- One tick of the startDownload progress interval.  The stage variable
read by the guards is the value captured by the interval's closure
(passed separately, as in the source where the callback closes over the
render that created it): a reported sha-verification or decompression
flag switches the stage and zeroes the percent and the stored maximum;
the percent update is max-gated and skipped while either flag is set;
a reported error ends the operation unless a disconnect was flagged. -/
def downloadPollStep (captured : FlashStage) (st : FlashState)
    (prog : DownloadProgress) : FlashState :=
  let st1 :=
    if prog.is_verifying_sha && !(captured == FlashStage.verifying_sha) then
      { st with stage := FlashStage.verifying_sha, maxProgress := 0, progress := 0 }
    else if prog.is_decompressing && !(captured == FlashStage.decompressing) then
      { st with stage := FlashStage.decompressing, maxProgress := 0, progress := 0 }
    else st
  let st2 :=
    if !prog.is_decompressing && !prog.is_verifying_sha then
      if prog.progress_percent ≥ st1.maxProgress then
        { st1 with maxProgress := prog.progress_percent, progress := prog.progress_percent }
      else st1
    else st1
  match prog.error with
  | some e =>
      if !st2.deviceDisconnected then
        { st2 with error := some e, stage := FlashStage.error, pollTimer := false }
      else st2
  | none => st2

/-- One tick of the startFlash progress interval: a reported verifying
flag switches the stage to verifying and zeroes the stored maximum
whenever it exceeds 50; the percent update is max-gated; a reported
error ends the operation unless a disconnect was flagged. -/
def flashPollStep (st : FlashState) (prog : FlashProgress) : FlashState :=
  let st1 :=
    if prog.is_verifying then
      let s := { st with stage := FlashStage.verifying }
      if s.maxProgress > 50 then { s with maxProgress := 0 } else s
    else st
  let st2 :=
    if prog.progress_percent ≥ st1.maxProgress then
      { st1 with maxProgress := prog.progress_percent, progress := prog.progress_percent }
    else st1
  match prog.error with
  | some e =>
      if !st2.deviceDisconnected then
        { st2 with error := some e, stage := FlashStage.error, pollTimer := false }
      else st2
  | none => st2

/-- Folding the flash poll over a sequence of polled snapshots. -/
def flashPollRun (st : FlashState) (progs : List FlashProgress) : FlashState :=
  progs.foldl flashPollStep st

/-- Whether the progress bar carries the indeterminate class in the
component's render. -/
def progressBarIndeterminate (stage : FlashStage) : Bool :=
  stage == FlashStage.decompressing || stage == FlashStage.verifying_sha

/-- Width (percent of the bar) of the progress fill in the render: full
width in the indeterminate stages, the displayed percent otherwise. -/
def progressFillWidth (stage : FlashStage) (progress : Nat) : Nat :=
  if stage == FlashStage.decompressing || stage == FlashStage.verifying_sha then 100
  else progress

/-- Whether the numeric percent text is rendered next to the bar. -/
def showsPercentText (stage : FlashStage) : Bool :=
  !(stage == FlashStage.decompressing || stage == FlashStage.verifying_sha)

/-- The flashImage wrapper of src/hooks/useTauri.ts: the verify
parameter defaults to true when the caller omits it. -/
def flashImageWrapper (imagePath devicePath : String) (verify : Option Bool) : Call :=
  Call.flashImage imagePath devicePath (verify.getD true)

/-- Whether a call list contains a download_image or flash_image call. -/
def hasWriteCall (cs : List Call) : Bool :=
  cs.any fun c =>
    match c with
    | Call.downloadImage _ _ => true
    | Call.flashImage _ _ _ => true
    | _ => false

/-- Whether a call list contains a decompress_custom_image call. -/
def hasDecompressCall (cs : List Call) : Bool :=
  cs.any fun c =>
    match c with
    | Call.decompressCustomImage _ => true
    | _ => false

/-- Every flash_image call in the list passes verify = true. -/
def allFlashVerify (cs : List Call) : Bool :=
  cs.all fun c =>
    match c with
    | Call.flashImage _ _ v => v
    | _ => true

/-- Every request_write_authorization and flash_image call in the list
targets the given device path. -/
def callsTargetOnly (dp : String) (cs : List Call) : Bool :=
  cs.all fun c =>
    match c with
    | Call.requestWriteAuthorization q => q == dp
    | Call.flashImage _ q _ => q == dp
    | _ => true

/-- C3: during the active stages the device monitor runs an immediate
check and then one every POLLING.DEVICE_CHECK milliseconds, and is
stopped as soon as the stage leaves the active set; a check whose
get_block_devices result no longer contains the selected device path
cancels the operation, clears both timers, and moves the UI to the error
stage carrying the device-disconnected message; the check schedule puts
a check inside every window of one poll interval, so the error state is
reached within one interval of the disappearance. -/
theorem C3_monitor_detects_disconnect (stage1 stage2 : FlashStage)
    (device : BlockDevice) (devs : List BlockDevice) (st : FlashState) (t k : Nat)
    (h1 : monitorActive stage1 = false) (h2 : monitorActive stage2 = true)
    (h3 : isDeviceConnected device.path devs = false) :
    monitorTimerAfter stage1 = none ∧
    monitorTimerAfter stage2 = some POLLING.DEVICE_CHECK ∧
    monitorCheckTime 0 = 0 ∧
    monitorCheckTime (k + 1) = monitorCheckTime k + POLLING.DEVICE_CHECK ∧
    (checkDevice device devs st).1.stage = FlashStage.error ∧
    (checkDevice device devs st).1.error = some deviceDisconnectedMsg ∧
    (checkDevice device devs st).1.deviceDisconnected = true ∧
    (checkDevice device devs st).1.pollTimer = false ∧
    (checkDevice device devs st).1.monitorTimer = false ∧
    Call.cancelOperation ∈ (checkDevice device devs st).2 ∧
    (∃ j, t ≤ monitorCheckTime j ∧ monitorCheckTime j < t + POLLING.DEVICE_CHECK) := by
  refine ⟨?_, ?_, rfl, ?_, ?_, ?_, ?_, ?_, ?_, ?_, ?_⟩
  · simp [monitorTimerAfter, h1]
  · simp [monitorTimerAfter, h2]
  · simp [monitorCheckTime, Nat.succ_mul]
  · simp [checkDevice, h3, handleDeviceDisconnected]
  · simp [checkDevice, h3, handleDeviceDisconnected]
  · simp [checkDevice, h3, handleDeviceDisconnected]
  · simp [checkDevice, h3, handleDeviceDisconnected]
  · simp [checkDevice, h3, handleDeviceDisconnected]
  · simp [checkDevice, h3, handleDeviceDisconnected]
  · refine ⟨(t + (POLLING.DEVICE_CHECK - 1)) / POLLING.DEVICE_CHECK, ?_, ?_⟩ <;>
      simp [monitorCheckTime, POLLING.DEVICE_CHECK] <;> omega

/-- C4: when a stage failure is handled while the disconnect flag is
already set, each catch handler returns early changing nothing but the
cleared poll interval; when the flag is clear and the re-check shows the
device gone, the surfaced error is the device-disconnected message (via
handleDeviceDisconnected, which also cancels the operation) and never
the interrupted stage's own error. -/
theorem C4_disconnect_takes_precedence (image : ImageInfo) (device : BlockDevice)
    (env : Env) (stc std : FlashState) (p e e2 e3 : String) (devs : List BlockDevice)
    (hfc : stc.deviceDisconnected = true)
    (hfd : std.deviceDisconnected = false)
    (hdev : env.devicesNow = Except.ok devs)
    (hconn : isDeviceConnected device.path devs = false) :
    startFlashCatch image device env stc p e = ({ stc with pollTimer := false }, []) ∧
    startDownloadCatch device env stc e2 = ({ stc with pollTimer := false }, []) ∧
    handleCustomImageCatch device env stc e3 = (stc, []) ∧
    (startFlashCatch image device env std p e).1.error = some deviceDisconnectedMsg ∧
    (startFlashCatch image device env std p e).1.stage = FlashStage.error ∧
    Call.cancelOperation ∈ (startFlashCatch image device env std p e).2 ∧
    (startDownloadCatch device env std e2).1.error = some deviceDisconnectedMsg ∧
    (startDownloadCatch device env std e2).1.stage = FlashStage.error ∧
    (handleCustomImageCatch device env std e3).1.error = some deviceDisconnectedMsg ∧
    (handleCustomImageCatch device env std e3).1.stage = FlashStage.error := by
  refine ⟨?_, ?_, ?_, ?_, ?_, ?_, ?_, ?_, ?_, ?_⟩ <;>
    simp [startFlashCatch, startDownloadCatch, handleCustomImageCatch,
          handleDeviceDisconnected, hfc, hfd, hdev, hconn]

theorem find?_filter_ne (s : SessionStorage) (k : String) :
    List.find? (fun p => p.1 == k) (List.filter (fun p => !(p.1 == k)) s) = none := by
  induction s with
  | nil => rfl
  | cons a s ih =>
      by_cases h : a.1 = k
      · simp [List.filter_cons, h, ih]
      · simp [List.filter_cons, List.find?, h, ih]

theorem storageGet_set_self (s : SessionStorage) (k : String) (n : Nat) :
    storageGet (storageSet s k n) k = n := by
  unfold storageGet storageSet
  by_cases h : n = 0
  · subst h
    rw [if_pos rfl, find?_filter_ne]
  · rw [if_neg h, List.find?_cons_of_pos _ (by simp)]

/-- Shape of the failure-count block for a non-custom image below the
threshold: the counter becomes the incremented count and no deletion is
requested. -/
theorem flashFailureHandling_below (image : ImageInfo) (env : Env) (st : FlashState)
    (p e : String) (hnc : image.is_custom = false)
    (h : getFlashFailureCount st image + 1 < CACHE.MAX_FLASH_FAILURES) :
    flashFailureHandling image env st p e =
      ({ st with storage := storageSet st.storage (failureStorageKey image)
                   (getFlashFailureCount st image + 1),
                 error := some e, stage := FlashStage.error },
       [Call.deleteDownloadedImage p]) := by
  unfold flashFailureHandling
  rw [hnc]
  simp only [Bool.not_false]
  rw [if_pos trivial, if_neg (by omega)]
  simp [cleanupImage, hnc]

/-- Shape of the failure-count block when the incremented count reaches
the threshold and the forced deletion succeeds: the cached image is
force-deleted and the counter ends at zero. -/
theorem flashFailureHandling_at (image : ImageInfo) (env : Env) (st : FlashState)
    (p e : String) (hnc : image.is_custom = false)
    (hforce : env.forceDeleteResult = Except.ok ())
    (h : getFlashFailureCount st image + 1 ≥ CACHE.MAX_FLASH_FAILURES) :
    flashFailureHandling image env st p e =
      ({ st with storage := storageSet
                   (storageSet st.storage (failureStorageKey image)
                     (getFlashFailureCount st image + 1))
                   (failureStorageKey image) 0,
                 error := some e, stage := FlashStage.error },
       [Call.forceDeleteCachedImage p, Call.deleteDownloadedImage p]) := by
  unfold flashFailureHandling
  rw [hnc]
  simp only [Bool.not_false]
  rw [if_pos trivial, if_pos h, hforce]
  simp [cleanupImage, hnc]

/-- Reduction of the flash catch handler to the failure-count block when
no disconnect was flagged and the device is still present. -/
theorem startFlashCatch_connected (image : ImageInfo) (device : BlockDevice)
    (env : Env) (st : FlashState) (p e : String) (devs : List BlockDevice)
    (hf : st.deviceDisconnected = false)
    (hdev : env.devicesNow = Except.ok devs)
    (hconn : isDeviceConnected device.path devs = true) :
    startFlashCatch image device env st p e =
      ((flashFailureHandling image env { st with pollTimer := false } p e).1,
       Call.getBlockDevices ::
         (flashFailureHandling image env { st with pollTimer := false } p e).2) := by
  unfold startFlashCatch
  simp [hf, hdev, hconn]

/-- C2: in the flash catch handler, with the device still connected and
a non-custom image, the failure counter kept in sessionStorage under the
key built from the image url is incremented by one; when the incremented
count reaches CACHE.MAX_FLASH_FAILURES the cached image is force-deleted
and the counter is reset to zero (and the deletion is not requested
below the threshold); a successful flash also resets the counter. -/
theorem C2_flash_failure_counter (image : ImageInfo) (device : BlockDevice)
    (env env2 : Env) (st1 st2 st3 : FlashState) (p e : String) (devs : List BlockDevice)
    (hnc : image.is_custom = false)
    (hf1 : st1.deviceDisconnected = false)
    (hf2 : st2.deviceDisconnected = false)
    (hdev : env.devicesNow = Except.ok devs)
    (hconn : isDeviceConnected device.path devs = true)
    (hforce : env.forceDeleteResult = Except.ok ())
    (hc1 : getFlashFailureCount st1 image + 1 < CACHE.MAX_FLASH_FAILURES)
    (hc2 : getFlashFailureCount st2 image + 1 = CACHE.MAX_FLASH_FAILURES)
    (henv2 : env2.flashResult = Except.ok ()) :
    failureStorageKey image = "flash_failure_count_" ++ image.file_url ∧
    getFlashFailureCount (startFlashCatch image device env st1 p e).1 image
      = getFlashFailureCount st1 image + 1 ∧
    Call.forceDeleteCachedImage p ∉ (startFlashCatch image device env st1 p e).2 ∧
    Call.forceDeleteCachedImage p ∈ (startFlashCatch image device env st2 p e).2 ∧
    getFlashFailureCount (startFlashCatch image device env st2 p e).1 image = 0 ∧
    getFlashFailureCount (startFlash image device env2 st3 p).1 image = 0 := by
  have e1 : getFlashFailureCount { st1 with pollTimer := false } image
      = getFlashFailureCount st1 image := rfl
  have e2 : getFlashFailureCount { st2 with pollTimer := false } image
      = getFlashFailureCount st2 image := rfl
  have r1 := startFlashCatch_connected image device env st1 p e devs hf1 hdev hconn
  have r2 := startFlashCatch_connected image device env st2 p e devs hf2 hdev hconn
  have b1 := flashFailureHandling_below image env { st1 with pollTimer := false } p e hnc
    (by rw [e1]; omega)
  have b2 := flashFailureHandling_at image env { st2 with pollTimer := false } p e hnc hforce
    (by rw [e2]; omega)
  refine ⟨rfl, ?_, ?_, ?_, ?_, ?_⟩
  · rw [r1, b1]
    simp [getFlashFailureCount, storageGet_set_self, e1]
  · rw [r1, b1]
    simp
  · rw [r2, b2]
    simp
  · rw [r2, b2]
    simp [getFlashFailureCount, storageGet_set_self]
  · simp [startFlash, getFlashFailureCount, henv2, storageGet_set_self]

/-- C5: in the initial flow and in the retry flow alike, the very first
backend call is request_write_authorization for the selected device
path, and when the authorization does not resolve to true (the user
cancelled or the call threw) the flow ends in the error stage without a
single download_image or flash_image call. -/
theorem C5_authorization_gates_writes (image : ImageInfo) (device : BlockDevice)
    (env : Env) (st : FlashState)
    (h : env.authResult ≠ Except.ok true) :
    (handleAuthorization image device env st).2.head?
      = some (Call.requestWriteAuthorization device.path) ∧
    (handleRetry image device env st).2.head?
      = some (Call.requestWriteAuthorization device.path) ∧
    (handleAuthorization image device env st).1.stage = FlashStage.error ∧
    hasWriteCall (handleAuthorization image device env st).2 = false ∧
    (handleRetry image device env st).1.stage = FlashStage.error ∧
    hasWriteCall (handleRetry image device env st).2 = false := by
  have hb : env.authResult = Except.ok false ∨ ∃ msg, env.authResult = Except.error msg := by
    rcases henv : env.authResult with msg | b
    · exact Or.inr ⟨msg, rfl⟩
    · cases b
      · exact Or.inl rfl
      · exact absurd henv h
  rcases hb with ha | ⟨msg, ha⟩ <;>
    refine ⟨?_, ?_, ?_, ?_, ?_, ?_⟩ <;>
      rcases hip : st.imagePath with _ | ipath <;>
        simp [handleAuthorization, handleRetry, hasWriteCall, ha, hip]

theorem hasDecompressCall_cons (c : Call) (l : List Call) :
    hasDecompressCall (c :: l)
      = ((match c with | Call.decompressCustomImage _ => true | _ => false)
         || hasDecompressCall l) := rfl

theorem hasDecompressCall_cleanupImage (image : ImageInfo) (p : String) :
    hasDecompressCall (cleanupImage image p) = false := by
  unfold cleanupImage
  split <;> rfl

theorem hasDecompressCall_ffh (image : ImageInfo) (env : Env) (st : FlashState)
    (p e : String) :
    hasDecompressCall (flashFailureHandling image env st p e).2 = false := by
  unfold flashFailureHandling
  split
  · split
    · split <;> simp [hasDecompressCall_cons, hasDecompressCall_cleanupImage]
    · simp [hasDecompressCall_cleanupImage]
  · simp [hasDecompressCall_cleanupImage]

theorem hasDecompressCall_sfc (image : ImageInfo) (device : BlockDevice) (env : Env)
    (st : FlashState) (p e : String) :
    hasDecompressCall (startFlashCatch image device env st p e).2 = false := by
  unfold startFlashCatch
  dsimp only
  split
  · rfl
  · split
    · split
      · simp [hasDecompressCall, handleDeviceDisconnected]
      · simp [hasDecompressCall_cons, hasDecompressCall_ffh]
    · simp [hasDecompressCall_cons, hasDecompressCall_ffh]

theorem hasDecompressCall_startFlash (image : ImageInfo) (device : BlockDevice)
    (env : Env) (st : FlashState) (p : String) :
    hasDecompressCall (startFlash image device env st p).2 = false := by
  unfold startFlash
  split
  · simp [hasDecompressCall_cons, hasDecompressCall_cleanupImage]
  · simp [hasDecompressCall_cons, hasDecompressCall_sfc]

/-- C7: for a custom image, decompress_custom_image is requested exactly
when check_needs_decompression answered true, and the subsequent
flash_image call receives the decompressed path in that case and the
original custom path unchanged otherwise. -/
theorem C7_custom_image_decompression (image : ImageInfo) (device : BlockDevice)
    (env1 env2 : Env) (st : FlashState) (customPath dp : String)
    (h1 : env1.needsDecompression = Except.ok true)
    (h2 : env1.decompressResult = Except.ok dp)
    (h3 : env2.needsDecompression = Except.ok false) :
    hasDecompressCall (handleCustomImage image device env1 st customPath).2 = true ∧
    Call.flashImage dp device.path true ∈ (handleCustomImage image device env1 st customPath).2 ∧
    hasDecompressCall (handleCustomImage image device env2 st customPath).2 = false ∧
    Call.flashImage customPath device.path true
      ∈ (handleCustomImage image device env2 st customPath).2 := by
  refine ⟨?_, ?_, ?_, ?_⟩
  · simp [handleCustomImage, hasDecompressCall, h1, h2]
  · simp [handleCustomImage, h1, h2, startFlash]
    rcases env1.flashResult with e | u <;> simp
  · simp [handleCustomImage, h3, hasDecompressCall_cons, hasDecompressCall_startFlash]
  · simp [handleCustomImage, h3, startFlash]
    rcases env2.flashResult with e | u <;> simp

theorem allFlashVerify_cons (c : Call) (l : List Call) :
    allFlashVerify (c :: l)
      = ((match c with | Call.flashImage _ _ v => v | _ => true)
         && allFlashVerify l) := rfl

theorem allFlashVerify_cleanupImage (image : ImageInfo) (p : String) :
    allFlashVerify (cleanupImage image p) = true := by
  unfold cleanupImage
  split <;> rfl

theorem allFlashVerify_ffh (image : ImageInfo) (env : Env) (st : FlashState)
    (p e : String) :
    allFlashVerify (flashFailureHandling image env st p e).2 = true := by
  unfold flashFailureHandling
  split
  · split
    · split <;> simp [allFlashVerify_cons, allFlashVerify_cleanupImage]
    · simp [allFlashVerify_cleanupImage]
  · simp [allFlashVerify_cleanupImage]

theorem allFlashVerify_sfc (image : ImageInfo) (device : BlockDevice) (env : Env)
    (st : FlashState) (p e : String) :
    allFlashVerify (startFlashCatch image device env st p e).2 = true := by
  unfold startFlashCatch
  dsimp only
  split
  · rfl
  · split
    · split
      · simp [allFlashVerify, handleDeviceDisconnected]
      · simp [allFlashVerify_cons, allFlashVerify_ffh]
    · simp [allFlashVerify_cons, allFlashVerify_ffh]

theorem allFlashVerify_startFlash (image : ImageInfo) (device : BlockDevice)
    (env : Env) (st : FlashState) (p : String) :
    allFlashVerify (startFlash image device env st p).2 = true := by
  unfold startFlash
  split
  · simp [allFlashVerify_cons, allFlashVerify_cleanupImage]
  · simp [allFlashVerify_cons, allFlashVerify_sfc]

theorem allFlashVerify_sdc (device : BlockDevice) (env : Env)
    (st : FlashState) (e : String) :
    allFlashVerify (startDownloadCatch device env st e).2 = true := by
  unfold startDownloadCatch
  dsimp only
  split
  · rfl
  · split
    · split
      · simp [allFlashVerify, handleDeviceDisconnected]
      · rfl
    · rfl

theorem allFlashVerify_startDownload (image : ImageInfo) (device : BlockDevice)
    (env : Env) (st : FlashState) :
    allFlashVerify (startDownload image device env st).2 = true := by
  unfold startDownload
  split
  · simp [allFlashVerify_cons, allFlashVerify_startFlash]
  · simp [allFlashVerify_cons, allFlashVerify_sdc]

theorem allFlashVerify_hcic (device : BlockDevice) (env : Env)
    (st : FlashState) (e : String) :
    allFlashVerify (handleCustomImageCatch device env st e).2 = true := by
  unfold handleCustomImageCatch
  split
  · rfl
  · split
    · split
      · simp [allFlashVerify, handleDeviceDisconnected]
      · rfl
    · rfl

theorem allFlashVerify_handleCustomImage (image : ImageInfo) (device : BlockDevice)
    (env : Env) (st : FlashState) (cp : String) :
    allFlashVerify (handleCustomImage image device env st cp).2 = true := by
  unfold handleCustomImage
  split
  · split
    · simp [allFlashVerify_cons, allFlashVerify_startFlash]
    · simp [allFlashVerify_cons, allFlashVerify_hcic]
  · simp [allFlashVerify_cons, allFlashVerify_startFlash]
  · simp [allFlashVerify_cons, allFlashVerify_hcic]

theorem allFlashVerify_handleAuthorization (image : ImageInfo) (device : BlockDevice)
    (env : Env) (st : FlashState) :
    allFlashVerify (handleAuthorization image device env st).2 = true := by
  unfold handleAuthorization
  split
  · split <;>
      simp [allFlashVerify_cons, allFlashVerify_handleCustomImage,
            allFlashVerify_startDownload]
  · rfl
  · rfl

theorem allFlashVerify_handleRetry (image : ImageInfo) (device : BlockDevice)
    (env : Env) (st : FlashState) :
    allFlashVerify (handleRetry image device env st).2 = true := by
  unfold handleRetry
  dsimp only
  split
  · split
    · simp [allFlashVerify_cons, allFlashVerify_startFlash]
    · rfl
    · rfl
  · exact allFlashVerify_handleAuthorization image device env _

/-- C9: the flashImage wrapper defaults its verify parameter to true
when the caller omits it, and every flash_image call emitted anywhere in
the initial flow or the retry flow passes verify = true, so no UI path
flashes without read-back verification. -/
theorem C9_verify_always_true (image : ImageInfo) (device : BlockDevice)
    (env : Env) (st : FlashState) (p d : String) :
    allFlashVerify (handleAuthorization image device env st).2 = true ∧
    allFlashVerify (handleRetry image device env st).2 = true ∧
    flashImageWrapper p d none = Call.flashImage p d true := by
  exact ⟨allFlashVerify_handleAuthorization image device env st,
         allFlashVerify_handleRetry image device env st, rfl⟩

theorem callsTargetOnly_cons (dp : String) (c : Call) (l : List Call) :
    callsTargetOnly dp (c :: l)
      = ((match c with
          | Call.requestWriteAuthorization q => q == dp
          | Call.flashImage _ q _ => q == dp
          | _ => true)
         && callsTargetOnly dp l) := rfl

theorem callsTargetOnly_cleanupImage (dp : String) (image : ImageInfo) (p : String) :
    callsTargetOnly dp (cleanupImage image p) = true := by
  unfold cleanupImage
  split <;> rfl

theorem callsTargetOnly_ffh (dp : String) (image : ImageInfo) (env : Env)
    (st : FlashState) (p e : String) :
    callsTargetOnly dp (flashFailureHandling image env st p e).2 = true := by
  unfold flashFailureHandling
  split
  · split
    · split <;> simp [callsTargetOnly_cons, callsTargetOnly_cleanupImage]
    · simp [callsTargetOnly_cleanupImage]
  · simp [callsTargetOnly_cleanupImage]

theorem callsTargetOnly_sfc (dp : String) (image : ImageInfo) (device : BlockDevice)
    (env : Env) (st : FlashState) (p e : String) :
    callsTargetOnly dp (startFlashCatch image device env st p e).2 = true := by
  unfold startFlashCatch
  dsimp only
  split
  · rfl
  · split
    · split
      · simp [callsTargetOnly, handleDeviceDisconnected]
      · simp [callsTargetOnly_cons, callsTargetOnly_ffh]
    · simp [callsTargetOnly_cons, callsTargetOnly_ffh]

theorem callsTargetOnly_startFlash (image : ImageInfo) (device : BlockDevice)
    (env : Env) (st : FlashState) (p : String) :
    callsTargetOnly device.path (startFlash image device env st p).2 = true := by
  unfold startFlash
  split
  · simp [callsTargetOnly_cons, callsTargetOnly_cleanupImage]
  · simp [callsTargetOnly_cons, callsTargetOnly_sfc]

theorem callsTargetOnly_sdc (dp : String) (device : BlockDevice) (env : Env)
    (st : FlashState) (e : String) :
    callsTargetOnly dp (startDownloadCatch device env st e).2 = true := by
  unfold startDownloadCatch
  dsimp only
  split
  · rfl
  · split
    · split
      · simp [callsTargetOnly, handleDeviceDisconnected]
      · rfl
    · rfl

theorem callsTargetOnly_startDownload (image : ImageInfo) (device : BlockDevice)
    (env : Env) (st : FlashState) :
    callsTargetOnly device.path (startDownload image device env st).2 = true := by
  unfold startDownload
  split
  · simp [callsTargetOnly_cons, callsTargetOnly_startFlash]
  · simp [callsTargetOnly_cons, callsTargetOnly_sdc]

theorem callsTargetOnly_hcic (dp : String) (device : BlockDevice) (env : Env)
    (st : FlashState) (e : String) :
    callsTargetOnly dp (handleCustomImageCatch device env st e).2 = true := by
  unfold handleCustomImageCatch
  split
  · rfl
  · split
    · split
      · simp [callsTargetOnly, handleDeviceDisconnected]
      · rfl
    · rfl

theorem callsTargetOnly_handleCustomImage (image : ImageInfo) (device : BlockDevice)
    (env : Env) (st : FlashState) (cp : String) :
    callsTargetOnly device.path (handleCustomImage image device env st cp).2 = true := by
  unfold handleCustomImage
  split
  · split
    · simp [callsTargetOnly_cons, callsTargetOnly_startFlash]
    · simp [callsTargetOnly_cons, callsTargetOnly_hcic]
  · simp [callsTargetOnly_cons, callsTargetOnly_startFlash]
  · simp [callsTargetOnly_cons, callsTargetOnly_hcic]

theorem callsTargetOnly_handleAuthorization (image : ImageInfo) (device : BlockDevice)
    (env : Env) (st : FlashState) :
    callsTargetOnly device.path (handleAuthorization image device env st).2 = true := by
  unfold handleAuthorization
  split
  · split <;>
      simp [callsTargetOnly_cons, callsTargetOnly_handleCustomImage,
            callsTargetOnly_startDownload]
  · simp [callsTargetOnly_cons, callsTargetOnly]
  · simp [callsTargetOnly_cons, callsTargetOnly]

/-- C10: sortDevices returns a permutation of its input in which
non-system devices precede system ones, removable devices precede
non-removable ones among equal system flags, and sizes are
non-increasing among devices equal on both flags. -/
theorem C10_sortDevices_permutation_and_order (l : List BlockDevice) :
    (sortDevices l).Perm l ∧
    (sortDevices l).Pairwise (fun a b =>
      (a.is_system = true → b.is_system = true) ∧
      (a.is_system = b.is_system → a.is_removable = false → b.is_removable = false) ∧
      (a.is_system = b.is_system → a.is_removable = b.is_removable → b.size ≤ a.size)) := by
  refine ⟨List.perm_insertionSort devLE l, ?_⟩
  refine (List.sorted_insertionSort devLE l).imp ?_
  intro a b h
  obtain ⟨_, _, asz, _, _, arm, asy, _⟩ := a
  obtain ⟨_, _, bsz, _, _, brm, bsy, _⟩ := b
  cases asy <;> cases bsy <;> cases arm <;> cases brm <;>
    simp_all [devLE, devCmp]

/-- C1: clicking a system device in the device modal performs no
selection (state unchanged, so in particular the confirm dialog does not
open), handleConfirm never fires onSelect with a system device, and the
flash flow started from a confirmed device directs every
request_write_authorization and flash_image call at that device's path
alone — so neither command is ever reached for a system device. -/
theorem C1_system_device_never_selected (d d2 : BlockDevice)
    (st st2 : DeviceModalState) (image : ImageInfo) (env : Env) (fst : FlashState)
    (h : d.is_system = true) (h2 : (handleConfirm st2).2 = some d2) :
    handleDeviceClick d st = st ∧ d2.is_system = false ∧
    callsTargetOnly d2.path (handleAuthorization image d2 env fst).2 = true := by
  refine ⟨?_, ?_, callsTargetOnly_handleAuthorization image d2 env fst⟩
  · simp [handleDeviceClick, h]
  · unfold handleConfirm at h2
    rcases hsel : st2.selectedDevice with _ | d3
    · simp [hsel] at h2
    · rw [hsel] at h2
      by_cases hsys : d3.is_system
      · simp [hsys] at h2
      · simp [hsys] at h2
        simpa [← h2] using hsys

/-- C6 counterexample: the flash poll does not keep the displayed
percent monotone within the verifying stage.  Starting from the state
startFlash installs and polling 40 percent (writing), then 60 percent
(verifying), the stage is verifying with 60 displayed; the next poll of
55 percent, still verifying, finds the stored maximum above 50, resets
it to 0 — with no stage transition — and displays 55, a decrease. -/
theorem C6_counterexample :
    (flashPollRun ⟨FlashStage.flashing, 0, 0, none, none, false, [], true, true⟩
        [⟨0, 0, 0, false, 40, none⟩, ⟨0, 0, 0, true, 60, none⟩]).stage
      = FlashStage.verifying ∧
    (flashPollRun ⟨FlashStage.flashing, 0, 0, none, none, false, [], true, true⟩
        [⟨0, 0, 0, false, 40, none⟩, ⟨0, 0, 0, true, 60, none⟩]).progress = 60 ∧
    (flashPollStep
        (flashPollRun ⟨FlashStage.flashing, 0, 0, none, none, false, [], true, true⟩
          [⟨0, 0, 0, false, 40, none⟩, ⟨0, 0, 0, true, 60, none⟩])
        ⟨0, 0, 0, true, 55, none⟩).stage = FlashStage.verifying ∧
    (flashPollStep
        (flashPollRun ⟨FlashStage.flashing, 0, 0, none, none, false, [], true, true⟩
          [⟨0, 0, 0, false, 40, none⟩, ⟨0, 0, 0, true, 60, none⟩])
        ⟨0, 0, 0, true, 55, none⟩).progress = 55 ∧
    55 < 60 := by
  refine ⟨rfl, rfl, rfl, rfl, by omega⟩

/-- C6 amended: the download poll and the write phase of the flash poll
are max-gated and never decrease the displayed percent (the invariant
that the display never exceeds the stored maximum is preserved); in the
verifying phase the stored maximum is additionally reset to zero on any
poll where it exceeds 50 — not only at stage transitions — so there the
display follows the polled percent and does not decrease only as long as
the polled verify percent is at least the currently displayed value. -/
theorem C6_amended_progress_monotonicity (captured : FlashStage)
    (st1 st2 st3 : FlashState) (p1 : DownloadProgress) (p2 p3 : FlashProgress)
    (hinv1 : st1.progress ≤ st1.maxProgress)
    (hd1 : p1.is_decompressing = false) (hd2 : p1.is_verifying_sha = false)
    (hinv2 : st2.progress ≤ st2.maxProgress) (hw : p2.is_verifying = false)
    (hv : p3.is_verifying = true) (hp : st3.progress ≤ p3.progress_percent) :
    st1.progress ≤ (downloadPollStep captured st1 p1).progress ∧
    (downloadPollStep captured st1 p1).progress
      ≤ (downloadPollStep captured st1 p1).maxProgress ∧
    st2.progress ≤ (flashPollStep st2 p2).progress ∧
    (flashPollStep st2 p2).progress ≤ (flashPollStep st2 p2).maxProgress ∧
    st3.progress ≤ (flashPollStep st3 p3).progress := by
  refine ⟨?_, ?_, ?_, ?_, ?_⟩ <;>
    simp only [downloadPollStep, flashPollStep] <;>
      rcases p1.error with _ | e1 <;> rcases p2.error with _ | e2 <;>
        rcases p3.error with _ | e3 <;>
          simp [hd1, hd2, hw, hv] <;> (try split_ifs) <;> (try simp) <;> omega

/-- C8: a download-progress poll reporting the sha-verifying flag while
the closure's stage is not yet verifying_sha switches the stage and
resets the displayed percent to 0, and likewise for the decompressing
flag; while the stage is decompressing the progress bar is rendered
indeterminate with a full-width fill and no numeric percent text. -/
theorem C8_stage_switch_and_indeterminate_render (captured1 captured2 : FlashStage)
    (st1 st2 : FlashState) (prog1 prog2 : DownloadProgress) (p : Nat)
    (h1 : prog1.is_verifying_sha = true) (hc1 : captured1 ≠ FlashStage.verifying_sha)
    (he1 : prog1.error = none)
    (h2 : prog2.is_decompressing = true) (h2b : prog2.is_verifying_sha = false)
    (hc2 : captured2 ≠ FlashStage.decompressing) (he2 : prog2.error = none) :
    (downloadPollStep captured1 st1 prog1).stage = FlashStage.verifying_sha ∧
    (downloadPollStep captured1 st1 prog1).progress = 0 ∧
    (downloadPollStep captured2 st2 prog2).stage = FlashStage.decompressing ∧
    (downloadPollStep captured2 st2 prog2).progress = 0 ∧
    progressBarIndeterminate FlashStage.decompressing = true ∧
    progressFillWidth FlashStage.decompressing p = 100 ∧
    showsPercentText FlashStage.decompressing = false := by
  refine ⟨?_, ?_, ?_, ?_, rfl, rfl, rfl⟩ <;>
    unfold downloadPollStep <;>
      simp [h1, hc1, he1, h2, h2b, hc2, he2]

/-- Witness for C1 at a concrete system disk, a concrete removable
drive, and a concrete environment. -/
theorem C1_witness :
    (BlockDevice.mk "/dev/sda" "sda" 512 "512 GB" "SSD" false true none).is_system = true ∧
    (handleConfirm ⟨some (BlockDevice.mk "d" "sdb" 32 "32 GB" "USB" true false none), true⟩).2
      = some (BlockDevice.mk "d" "sdb" 32 "32 GB" "USB" true false none) ∧
    (handleDeviceClick (BlockDevice.mk "/dev/sda" "sda" 512 "512 GB" "SSD" false true none)
        ⟨none, false⟩ = ⟨none, false⟩ ∧
      (BlockDevice.mk "d" "sdb" 32 "32 GB" "USB" true false none).is_system = false ∧
      callsTargetOnly "d"
        (handleAuthorization (ImageInfo.mk "u" none false none)
          (BlockDevice.mk "d" "sdb" 32 "32 GB" "USB" true false none)
          ⟨Except.ok true, Except.ok false, Except.ok "x", Except.ok "x",
           Except.ok (), Except.ok (), Except.ok []⟩
          ⟨FlashStage.authorizing, 0, 0, none, none, false, [], false, false⟩).2 = true) :=
  ⟨rfl, rfl,
   C1_system_device_never_selected
     (BlockDevice.mk "/dev/sda" "sda" 512 "512 GB" "SSD" false true none)
     (BlockDevice.mk "d" "sdb" 32 "32 GB" "USB" true false none)
     ⟨none, false⟩
     ⟨some (BlockDevice.mk "d" "sdb" 32 "32 GB" "USB" true false none), true⟩
     (ImageInfo.mk "u" none false none)
     ⟨Except.ok true, Except.ok false, Except.ok "x", Except.ok "x",
      Except.ok (), Except.ok (), Except.ok []⟩
     ⟨FlashStage.authorizing, 0, 0, none, none, false, [], false, false⟩
     rfl rfl⟩

/-- Witness for C2: a counter at 0 is incremented to 1 with no deletion,
a counter at 2 reaches the threshold, triggers the forced deletion and
resets, and a successful flash resets the counter. -/
theorem C2_witness :
    (ImageInfo.mk "u" none false none).is_custom = false ∧
    (⟨FlashStage.flashing, 0, 0, none, none, false, [], false, false⟩ : FlashState).deviceDisconnected = false ∧
    (⟨FlashStage.flashing, 0, 0, none, none, false, [("flash_failure_count_u", 2)], false, false⟩ : FlashState).deviceDisconnected = false ∧
    (⟨Except.ok true, Except.ok false, Except.ok "x", Except.ok "x", Except.error "boom",
      Except.ok (), Except.ok [BlockDevice.mk "d" "sdb" 32 "32 GB" "USB" true false none]⟩ : Env).devicesNow
      = Except.ok [BlockDevice.mk "d" "sdb" 32 "32 GB" "USB" true false none] ∧
    isDeviceConnected "d" [BlockDevice.mk "d" "sdb" 32 "32 GB" "USB" true false none] = true ∧
    (⟨Except.ok true, Except.ok false, Except.ok "x", Except.ok "x", Except.error "boom",
      Except.ok (), Except.ok [BlockDevice.mk "d" "sdb" 32 "32 GB" "USB" true false none]⟩ : Env).forceDeleteResult
      = Except.ok () ∧
    getFlashFailureCount ⟨FlashStage.flashing, 0, 0, none, none, false, [], false, false⟩
      (ImageInfo.mk "u" none false none) + 1 < CACHE.MAX_FLASH_FAILURES ∧
    getFlashFailureCount
      ⟨FlashStage.flashing, 0, 0, none, none, false, [("flash_failure_count_u", 2)], false, false⟩
      (ImageInfo.mk "u" none false none) + 1 = CACHE.MAX_FLASH_FAILURES ∧
    (⟨Except.ok true, Except.ok false, Except.ok "x", Except.ok "x", Except.ok (),
      Except.ok (), Except.ok []⟩ : Env).flashResult = Except.ok () ∧
    (failureStorageKey (ImageInfo.mk "u" none false none)
      = "flash_failure_count_" ++ (ImageInfo.mk "u" none false none).file_url ∧
     getFlashFailureCount
        (startFlashCatch (ImageInfo.mk "u" none false none)
          (BlockDevice.mk "d" "sdb" 32 "32 GB" "USB" true false none)
          ⟨Except.ok true, Except.ok false, Except.ok "x", Except.ok "x", Except.error "boom",
           Except.ok (), Except.ok [BlockDevice.mk "d" "sdb" 32 "32 GB" "USB" true false none]⟩
          ⟨FlashStage.flashing, 0, 0, none, none, false, [], false, false⟩ "p" "boom").1
        (ImageInfo.mk "u" none false none)
      = getFlashFailureCount ⟨FlashStage.flashing, 0, 0, none, none, false, [], false, false⟩
          (ImageInfo.mk "u" none false none) + 1 ∧
     Call.forceDeleteCachedImage "p" ∉
       (startFlashCatch (ImageInfo.mk "u" none false none)
          (BlockDevice.mk "d" "sdb" 32 "32 GB" "USB" true false none)
          ⟨Except.ok true, Except.ok false, Except.ok "x", Except.ok "x", Except.error "boom",
           Except.ok (), Except.ok [BlockDevice.mk "d" "sdb" 32 "32 GB" "USB" true false none]⟩
          ⟨FlashStage.flashing, 0, 0, none, none, false, [], false, false⟩ "p" "boom").2 ∧
     Call.forceDeleteCachedImage "p" ∈
       (startFlashCatch (ImageInfo.mk "u" none false none)
          (BlockDevice.mk "d" "sdb" 32 "32 GB" "USB" true false none)
          ⟨Except.ok true, Except.ok false, Except.ok "x", Except.ok "x", Except.error "boom",
           Except.ok (), Except.ok [BlockDevice.mk "d" "sdb" 32 "32 GB" "USB" true false none]⟩
          ⟨FlashStage.flashing, 0, 0, none, none, false, [("flash_failure_count_u", 2)], false, false⟩
          "p" "boom").2 ∧
     getFlashFailureCount
        (startFlashCatch (ImageInfo.mk "u" none false none)
          (BlockDevice.mk "d" "sdb" 32 "32 GB" "USB" true false none)
          ⟨Except.ok true, Except.ok false, Except.ok "x", Except.ok "x", Except.error "boom",
           Except.ok (), Except.ok [BlockDevice.mk "d" "sdb" 32 "32 GB" "USB" true false none]⟩
          ⟨FlashStage.flashing, 0, 0, none, none, false, [("flash_failure_count_u", 2)], false, false⟩
          "p" "boom").1
        (ImageInfo.mk "u" none false none) = 0 ∧
     getFlashFailureCount
        (startFlash (ImageInfo.mk "u" none false none)
          (BlockDevice.mk "d" "sdb" 32 "32 GB" "USB" true false none)
          ⟨Except.ok true, Except.ok false, Except.ok "x", Except.ok "x", Except.ok (),
           Except.ok (), Except.ok []⟩
          ⟨FlashStage.flashing, 0, 0, none, none, false, [], false, false⟩ "p").1
        (ImageInfo.mk "u" none false none) = 0) :=
  ⟨rfl, rfl, rfl, rfl, by decide, rfl, by decide, by decide, rfl,
   C2_flash_failure_counter
     (ImageInfo.mk "u" none false none)
     (BlockDevice.mk "d" "sdb" 32 "32 GB" "USB" true false none)
     ⟨Except.ok true, Except.ok false, Except.ok "x", Except.ok "x", Except.error "boom",
      Except.ok (), Except.ok [BlockDevice.mk "d" "sdb" 32 "32 GB" "USB" true false none]⟩
     ⟨Except.ok true, Except.ok false, Except.ok "x", Except.ok "x", Except.ok (),
      Except.ok (), Except.ok []⟩
     ⟨FlashStage.flashing, 0, 0, none, none, false, [], false, false⟩
     ⟨FlashStage.flashing, 0, 0, none, none, false, [("flash_failure_count_u", 2)], false, false⟩
     ⟨FlashStage.flashing, 0, 0, none, none, false, [], false, false⟩
     "p" "boom" [BlockDevice.mk "d" "sdb" 32 "32 GB" "USB" true false none]
     rfl rfl rfl rfl (by decide) rfl (by decide) (by decide) rfl⟩

/-- Witness for C3 at an inactive stage, an active stage, and a poll
that no longer lists the selected device. -/
theorem C3_witness :
    monitorActive FlashStage.complete = false ∧
    monitorActive FlashStage.flashing = true ∧
    isDeviceConnected "d" [] = false ∧
    (monitorTimerAfter FlashStage.complete = none ∧
     monitorTimerAfter FlashStage.flashing = some POLLING.DEVICE_CHECK ∧
     monitorCheckTime 0 = 0 ∧
     monitorCheckTime (5 + 1) = monitorCheckTime 5 + POLLING.DEVICE_CHECK ∧
     (checkDevice (BlockDevice.mk "d" "sdb" 32 "32 GB" "USB" true false none) []
        ⟨FlashStage.flashing, 10, 10, none, some "p", false, [], true, true⟩).1.stage
       = FlashStage.error ∧
     (checkDevice (BlockDevice.mk "d" "sdb" 32 "32 GB" "USB" true false none) []
        ⟨FlashStage.flashing, 10, 10, none, some "p", false, [], true, true⟩).1.error
       = some deviceDisconnectedMsg ∧
     (checkDevice (BlockDevice.mk "d" "sdb" 32 "32 GB" "USB" true false none) []
        ⟨FlashStage.flashing, 10, 10, none, some "p", false, [], true, true⟩).1.deviceDisconnected = true ∧
     (checkDevice (BlockDevice.mk "d" "sdb" 32 "32 GB" "USB" true false none) []
        ⟨FlashStage.flashing, 10, 10, none, some "p", false, [], true, true⟩).1.pollTimer = false ∧
     (checkDevice (BlockDevice.mk "d" "sdb" 32 "32 GB" "USB" true false none) []
        ⟨FlashStage.flashing, 10, 10, none, some "p", false, [], true, true⟩).1.monitorTimer = false ∧
     Call.cancelOperation ∈
       (checkDevice (BlockDevice.mk "d" "sdb" 32 "32 GB" "USB" true false none) []
        ⟨FlashStage.flashing, 10, 10, none, some "p", false, [], true, true⟩).2 ∧
     (∃ j, 4321 ≤ monitorCheckTime j ∧ monitorCheckTime j < 4321 + POLLING.DEVICE_CHECK)) :=
  ⟨rfl, rfl, rfl,
   C3_monitor_detects_disconnect FlashStage.complete FlashStage.flashing
     (BlockDevice.mk "d" "sdb" 32 "32 GB" "USB" true false none) []
     ⟨FlashStage.flashing, 10, 10, none, some "p", false, [], true, true⟩ 4321 5
     rfl rfl rfl⟩

/-- Witness for C4: a catch with the disconnect flag already set, and a
catch whose re-check finds the device gone. -/
theorem C4_witness :
    (⟨FlashStage.flashing, 10, 10, some deviceDisconnectedMsg, some "p", true, [], true, true⟩ : FlashState).deviceDisconnected = true ∧
    (⟨FlashStage.flashing, 10, 10, none, some "p", false, [], true, true⟩ : FlashState).deviceDisconnected = false ∧
    (⟨Except.ok true, Except.ok false, Except.ok "x", Except.ok "x", Except.error "boom",
      Except.ok (), Except.ok []⟩ : Env).devicesNow = Except.ok [] ∧
    isDeviceConnected "d" [] = false ∧
    (startFlashCatch (ImageInfo.mk "u" none false none)
        (BlockDevice.mk "d" "sdb" 32 "32 GB" "USB" true false none)
        ⟨Except.ok true, Except.ok false, Except.ok "x", Except.ok "x", Except.error "boom",
         Except.ok (), Except.ok []⟩
        ⟨FlashStage.flashing, 10, 10, some deviceDisconnectedMsg, some "p", true, [], true, true⟩
        "p" "e1"
      = (⟨FlashStage.flashing, 10, 10, some deviceDisconnectedMsg, some "p", true, [], false, true⟩, []) ∧
     startDownloadCatch (BlockDevice.mk "d" "sdb" 32 "32 GB" "USB" true false none)
        ⟨Except.ok true, Except.ok false, Except.ok "x", Except.ok "x", Except.error "boom",
         Except.ok (), Except.ok []⟩
        ⟨FlashStage.flashing, 10, 10, some deviceDisconnectedMsg, some "p", true, [], true, true⟩ "e2"
      = (⟨FlashStage.flashing, 10, 10, some deviceDisconnectedMsg, some "p", true, [], false, true⟩, []) ∧
     handleCustomImageCatch (BlockDevice.mk "d" "sdb" 32 "32 GB" "USB" true false none)
        ⟨Except.ok true, Except.ok false, Except.ok "x", Except.ok "x", Except.error "boom",
         Except.ok (), Except.ok []⟩
        ⟨FlashStage.flashing, 10, 10, some deviceDisconnectedMsg, some "p", true, [], true, true⟩ "e3"
      = (⟨FlashStage.flashing, 10, 10, some deviceDisconnectedMsg, some "p", true, [], true, true⟩, []) ∧
     (startFlashCatch (ImageInfo.mk "u" none false none)
        (BlockDevice.mk "d" "sdb" 32 "32 GB" "USB" true false none)
        ⟨Except.ok true, Except.ok false, Except.ok "x", Except.ok "x", Except.error "boom",
         Except.ok (), Except.ok []⟩
        ⟨FlashStage.flashing, 10, 10, none, some "p", false, [], true, true⟩ "p" "e1").1.error
       = some deviceDisconnectedMsg ∧
     (startFlashCatch (ImageInfo.mk "u" none false none)
        (BlockDevice.mk "d" "sdb" 32 "32 GB" "USB" true false none)
        ⟨Except.ok true, Except.ok false, Except.ok "x", Except.ok "x", Except.error "boom",
         Except.ok (), Except.ok []⟩
        ⟨FlashStage.flashing, 10, 10, none, some "p", false, [], true, true⟩ "p" "e1").1.stage
       = FlashStage.error ∧
     Call.cancelOperation ∈
       (startFlashCatch (ImageInfo.mk "u" none false none)
        (BlockDevice.mk "d" "sdb" 32 "32 GB" "USB" true false none)
        ⟨Except.ok true, Except.ok false, Except.ok "x", Except.ok "x", Except.error "boom",
         Except.ok (), Except.ok []⟩
        ⟨FlashStage.flashing, 10, 10, none, some "p", false, [], true, true⟩ "p" "e1").2 ∧
     (startDownloadCatch (BlockDevice.mk "d" "sdb" 32 "32 GB" "USB" true false none)
        ⟨Except.ok true, Except.ok false, Except.ok "x", Except.ok "x", Except.error "boom",
         Except.ok (), Except.ok []⟩
        ⟨FlashStage.flashing, 10, 10, none, some "p", false, [], true, true⟩ "e2").1.error
       = some deviceDisconnectedMsg ∧
     (startDownloadCatch (BlockDevice.mk "d" "sdb" 32 "32 GB" "USB" true false none)
        ⟨Except.ok true, Except.ok false, Except.ok "x", Except.ok "x", Except.error "boom",
         Except.ok (), Except.ok []⟩
        ⟨FlashStage.flashing, 10, 10, none, some "p", false, [], true, true⟩ "e2").1.stage
       = FlashStage.error ∧
     (handleCustomImageCatch (BlockDevice.mk "d" "sdb" 32 "32 GB" "USB" true false none)
        ⟨Except.ok true, Except.ok false, Except.ok "x", Except.ok "x", Except.error "boom",
         Except.ok (), Except.ok []⟩
        ⟨FlashStage.flashing, 10, 10, none, some "p", false, [], true, true⟩ "e3").1.error
       = some deviceDisconnectedMsg ∧
     (handleCustomImageCatch (BlockDevice.mk "d" "sdb" 32 "32 GB" "USB" true false none)
        ⟨Except.ok true, Except.ok false, Except.ok "x", Except.ok "x", Except.error "boom",
         Except.ok (), Except.ok []⟩
        ⟨FlashStage.flashing, 10, 10, none, some "p", false, [], true, true⟩ "e3").1.stage
       = FlashStage.error) :=
  ⟨rfl, rfl, rfl, rfl,
   C4_disconnect_takes_precedence (ImageInfo.mk "u" none false none)
     (BlockDevice.mk "d" "sdb" 32 "32 GB" "USB" true false none)
     ⟨Except.ok true, Except.ok false, Except.ok "x", Except.ok "x", Except.error "boom",
      Except.ok (), Except.ok []⟩
     ⟨FlashStage.flashing, 10, 10, some deviceDisconnectedMsg, some "p", true, [], true, true⟩
     ⟨FlashStage.flashing, 10, 10, none, some "p", false, [], true, true⟩
     "p" "e1" "e2" "e3" []
     rfl rfl rfl rfl⟩

/-- Witness for C5 at a cancelled authorization. -/
theorem C5_witness :
    (⟨Except.ok false, Except.ok false, Except.ok "x", Except.ok "x", Except.ok (),
      Except.ok (), Except.ok []⟩ : Env).authResult ≠ Except.ok true ∧
    ((handleAuthorization (ImageInfo.mk "u" none false none)
        (BlockDevice.mk "d" "sdb" 32 "32 GB" "USB" true false none)
        ⟨Except.ok false, Except.ok false, Except.ok "x", Except.ok "x", Except.ok (),
         Except.ok (), Except.ok []⟩
        ⟨FlashStage.authorizing, 0, 0, none, none, false, [], false, false⟩).2.head?
      = some (Call.requestWriteAuthorization "d") ∧
     (handleRetry (ImageInfo.mk "u" none false none)
        (BlockDevice.mk "d" "sdb" 32 "32 GB" "USB" true false none)
        ⟨Except.ok false, Except.ok false, Except.ok "x", Except.ok "x", Except.ok (),
         Except.ok (), Except.ok []⟩
        ⟨FlashStage.authorizing, 0, 0, none, none, false, [], false, false⟩).2.head?
      = some (Call.requestWriteAuthorization "d") ∧
     (handleAuthorization (ImageInfo.mk "u" none false none)
        (BlockDevice.mk "d" "sdb" 32 "32 GB" "USB" true false none)
        ⟨Except.ok false, Except.ok false, Except.ok "x", Except.ok "x", Except.ok (),
         Except.ok (), Except.ok []⟩
        ⟨FlashStage.authorizing, 0, 0, none, none, false, [], false, false⟩).1.stage
      = FlashStage.error ∧
     hasWriteCall
       (handleAuthorization (ImageInfo.mk "u" none false none)
        (BlockDevice.mk "d" "sdb" 32 "32 GB" "USB" true false none)
        ⟨Except.ok false, Except.ok false, Except.ok "x", Except.ok "x", Except.ok (),
         Except.ok (), Except.ok []⟩
        ⟨FlashStage.authorizing, 0, 0, none, none, false, [], false, false⟩).2 = false ∧
     (handleRetry (ImageInfo.mk "u" none false none)
        (BlockDevice.mk "d" "sdb" 32 "32 GB" "USB" true false none)
        ⟨Except.ok false, Except.ok false, Except.ok "x", Except.ok "x", Except.ok (),
         Except.ok (), Except.ok []⟩
        ⟨FlashStage.authorizing, 0, 0, none, none, false, [], false, false⟩).1.stage
      = FlashStage.error ∧
     hasWriteCall
       (handleRetry (ImageInfo.mk "u" none false none)
        (BlockDevice.mk "d" "sdb" 32 "32 GB" "USB" true false none)
        ⟨Except.ok false, Except.ok false, Except.ok "x", Except.ok "x", Except.ok (),
         Except.ok (), Except.ok []⟩
        ⟨FlashStage.authorizing, 0, 0, none, none, false, [], false, false⟩).2 = false) :=
  ⟨by decide,
   C5_authorization_gates_writes (ImageInfo.mk "u" none false none)
     (BlockDevice.mk "d" "sdb" 32 "32 GB" "USB" true false none)
     ⟨Except.ok false, Except.ok false, Except.ok "x", Except.ok "x", Except.ok (),
      Except.ok (), Except.ok []⟩
     ⟨FlashStage.authorizing, 0, 0, none, none, false, [], false, false⟩
     (by decide)⟩

/-- Witness for the amended C6 at concrete poll states: a download poll,
a write-phase flash poll, and a verifying poll whose percent is at least
the displayed value. -/
theorem C6_amended_witness :
    (⟨FlashStage.downloading, 0, 0, none, none, false, [], true, true⟩ : FlashState).progress
      ≤ (⟨FlashStage.downloading, 0, 0, none, none, false, [], true, true⟩ : FlashState).maxProgress ∧
    (⟨0, 0, false, false, 10, none⟩ : DownloadProgress).is_decompressing = false ∧
    (⟨0, 0, false, false, 10, none⟩ : DownloadProgress).is_verifying_sha = false ∧
    (⟨FlashStage.flashing, 0, 0, none, none, false, [], true, true⟩ : FlashState).progress
      ≤ (⟨FlashStage.flashing, 0, 0, none, none, false, [], true, true⟩ : FlashState).maxProgress ∧
    (⟨0, 0, 0, false, 20, none⟩ : FlashProgress).is_verifying = false ∧
    (⟨0, 0, 0, true, 61, none⟩ : FlashProgress).is_verifying = true ∧
    (⟨FlashStage.verifying, 60, 60, none, none, false, [], true, true⟩ : FlashState).progress
      ≤ (⟨0, 0, 0, true, 61, none⟩ : FlashProgress).progress_percent ∧
    ((⟨FlashStage.downloading, 0, 0, none, none, false, [], true, true⟩ : FlashState).progress
       ≤ (downloadPollStep FlashStage.downloading
            ⟨FlashStage.downloading, 0, 0, none, none, false, [], true, true⟩
            ⟨0, 0, false, false, 10, none⟩).progress ∧
     (downloadPollStep FlashStage.downloading
        ⟨FlashStage.downloading, 0, 0, none, none, false, [], true, true⟩
        ⟨0, 0, false, false, 10, none⟩).progress
       ≤ (downloadPollStep FlashStage.downloading
            ⟨FlashStage.downloading, 0, 0, none, none, false, [], true, true⟩
            ⟨0, 0, false, false, 10, none⟩).maxProgress ∧
     (⟨FlashStage.flashing, 0, 0, none, none, false, [], true, true⟩ : FlashState).progress
       ≤ (flashPollStep ⟨FlashStage.flashing, 0, 0, none, none, false, [], true, true⟩
            ⟨0, 0, 0, false, 20, none⟩).progress ∧
     (flashPollStep ⟨FlashStage.flashing, 0, 0, none, none, false, [], true, true⟩
        ⟨0, 0, 0, false, 20, none⟩).progress
       ≤ (flashPollStep ⟨FlashStage.flashing, 0, 0, none, none, false, [], true, true⟩
            ⟨0, 0, 0, false, 20, none⟩).maxProgress ∧
     (⟨FlashStage.verifying, 60, 60, none, none, false, [], true, true⟩ : FlashState).progress
       ≤ (flashPollStep ⟨FlashStage.verifying, 60, 60, none, none, false, [], true, true⟩
            ⟨0, 0, 0, true, 61, none⟩).progress) :=
  ⟨by decide, rfl, rfl, by decide, rfl, rfl, by decide,
   C6_amended_progress_monotonicity FlashStage.downloading
     ⟨FlashStage.downloading, 0, 0, none, none, false, [], true, true⟩
     ⟨FlashStage.flashing, 0, 0, none, none, false, [], true, true⟩
     ⟨FlashStage.verifying, 60, 60, none, none, false, [], true, true⟩
     ⟨0, 0, false, false, 10, none⟩ ⟨0, 0, 0, false, 20, none⟩ ⟨0, 0, 0, true, 61, none⟩
     (by decide) rfl rfl (by decide) rfl rfl (by decide)⟩

/-- Witness for C7 at a custom image that needs decompression and one
that does not. -/
theorem C7_witness :
    (⟨Except.ok true, Except.ok true, Except.ok "dp", Except.ok "x", Except.ok (),
      Except.ok (), Except.ok []⟩ : Env).needsDecompression = Except.ok true ∧
    (⟨Except.ok true, Except.ok true, Except.ok "dp", Except.ok "x", Except.ok (),
      Except.ok (), Except.ok []⟩ : Env).decompressResult = Except.ok "dp" ∧
    (⟨Except.ok true, Except.ok false, Except.ok "dp", Except.ok "x", Except.ok (),
      Except.ok (), Except.ok []⟩ : Env).needsDecompression = Except.ok false ∧
    (hasDecompressCall
       (handleCustomImage (ImageInfo.mk "u" none true (some "cp"))
         (BlockDevice.mk "d" "sdb" 32 "32 GB" "USB" true false none)
         ⟨Except.ok true, Except.ok true, Except.ok "dp", Except.ok "x", Except.ok (),
          Except.ok (), Except.ok []⟩
         ⟨FlashStage.authorizing, 0, 0, none, none, false, [], false, false⟩ "cp").2 = true ∧
     Call.flashImage "dp" "d" true ∈
       (handleCustomImage (ImageInfo.mk "u" none true (some "cp"))
         (BlockDevice.mk "d" "sdb" 32 "32 GB" "USB" true false none)
         ⟨Except.ok true, Except.ok true, Except.ok "dp", Except.ok "x", Except.ok (),
          Except.ok (), Except.ok []⟩
         ⟨FlashStage.authorizing, 0, 0, none, none, false, [], false, false⟩ "cp").2 ∧
     hasDecompressCall
       (handleCustomImage (ImageInfo.mk "u" none true (some "cp"))
         (BlockDevice.mk "d" "sdb" 32 "32 GB" "USB" true false none)
         ⟨Except.ok true, Except.ok false, Except.ok "dp", Except.ok "x", Except.ok (),
          Except.ok (), Except.ok []⟩
         ⟨FlashStage.authorizing, 0, 0, none, none, false, [], false, false⟩ "cp").2 = false ∧
     Call.flashImage "cp" "d" true ∈
       (handleCustomImage (ImageInfo.mk "u" none true (some "cp"))
         (BlockDevice.mk "d" "sdb" 32 "32 GB" "USB" true false none)
         ⟨Except.ok true, Except.ok false, Except.ok "dp", Except.ok "x", Except.ok (),
          Except.ok (), Except.ok []⟩
         ⟨FlashStage.authorizing, 0, 0, none, none, false, [], false, false⟩ "cp").2) :=
  ⟨rfl, rfl, rfl,
   C7_custom_image_decompression (ImageInfo.mk "u" none true (some "cp"))
     (BlockDevice.mk "d" "sdb" 32 "32 GB" "USB" true false none)
     ⟨Except.ok true, Except.ok true, Except.ok "dp", Except.ok "x", Except.ok (),
      Except.ok (), Except.ok []⟩
     ⟨Except.ok true, Except.ok false, Except.ok "dp", Except.ok "x", Except.ok (),
      Except.ok (), Except.ok []⟩
     ⟨FlashStage.authorizing, 0, 0, none, none, false, [], false, false⟩
     "cp" "dp" rfl rfl rfl⟩

/-- Witness for C8 at a poll reporting sha verification, a poll
reporting decompression, and the decompressing render. -/
theorem C8_witness :
    (⟨0, 0, false, true, 30, none⟩ : DownloadProgress).is_verifying_sha = true ∧
    FlashStage.downloading ≠ FlashStage.verifying_sha ∧
    (⟨0, 0, false, true, 30, none⟩ : DownloadProgress).error = none ∧
    (⟨0, 0, true, false, 30, none⟩ : DownloadProgress).is_decompressing = true ∧
    (⟨0, 0, true, false, 30, none⟩ : DownloadProgress).is_verifying_sha = false ∧
    FlashStage.downloading ≠ FlashStage.decompressing ∧
    (⟨0, 0, true, false, 30, none⟩ : DownloadProgress).error = none ∧
    ((downloadPollStep FlashStage.downloading
        ⟨FlashStage.downloading, 40, 40, none, none, false, [], true, true⟩
        ⟨0, 0, false, true, 30, none⟩).stage = FlashStage.verifying_sha ∧
     (downloadPollStep FlashStage.downloading
        ⟨FlashStage.downloading, 40, 40, none, none, false, [], true, true⟩
        ⟨0, 0, false, true, 30, none⟩).progress = 0 ∧
     (downloadPollStep FlashStage.downloading
        ⟨FlashStage.downloading, 40, 40, none, none, false, [], true, true⟩
        ⟨0, 0, true, false, 30, none⟩).stage = FlashStage.decompressing ∧
     (downloadPollStep FlashStage.downloading
        ⟨FlashStage.downloading, 40, 40, none, none, false, [], true, true⟩
        ⟨0, 0, true, false, 30, none⟩).progress = 0 ∧
     progressBarIndeterminate FlashStage.decompressing = true ∧
     progressFillWidth FlashStage.decompressing 42 = 100 ∧
     showsPercentText FlashStage.decompressing = false) :=
  ⟨rfl, by decide, rfl, rfl, rfl, by decide, rfl,
   C8_stage_switch_and_indeterminate_render FlashStage.downloading FlashStage.downloading
     ⟨FlashStage.downloading, 40, 40, none, none, false, [], true, true⟩
     ⟨FlashStage.downloading, 40, 40, none, none, false, [], true, true⟩
     ⟨0, 0, false, true, 30, none⟩ ⟨0, 0, true, false, 30, none⟩ 42
     rfl (by decide) rfl rfl rfl (by decide) rfl⟩
